import Mathlib

/-!
Shallow embedding of the zenscraper/nthscraper selector-resolution and
element-wrapper layer (`src/nthscraper/scraper.py`) and of the transport
wrapper (`src/zenscraper/wrapper/requests_wrapper.py`).

Python exceptions are modelled with `Except PyError`; the external
collaborators (the lxml query engine, the HTTP backend, the parser) are
passed in as function parameters, matching the spec's treatment of them as
black boxes. Machine behaviour that has no observable effect in this layer
(actual sleeping for the throttle delay) is noted where it is elided.
-/

/-- The Python exception classes that appear in `scraper.py` and
`requests_wrapper.py`, plus the exception classes the external
collaborators can raise into this layer. -/
inductive PyError where
  | valueError (msg : String)
  | referenceError (msg : String)
  | nameError (name : String)
  | httpError (status : Nat)
  | queryError (msg : String)
  | parserError (msg : String)
  | connectionError (msg : String)
  deriving Repr, DecidableEq

/-- Models Python `str(e)` on the exceptions above, as interpolated into
the f-strings used for logging. -/
def pyStr : PyError → String
  | .valueError m => m
  | .referenceError m => m
  | .nameError n => "name " ++ n ++ " is not defined"
  | .httpError s => "HTTP error " ++ toString s
  | .queryError m => m
  | .parserError m => m
  | .connectionError m => m

/-- A `requests` response: status code and body bytes (modelled as a
string). -/
structure Response where
  status : Nat
  content : String
  deriving Repr, DecidableEq

/-- A node of the lxml parsed tree (`lxml.etree._Element`): tag name,
attribute mapping, the text that precedes the first child (`.text`), the
text that follows this element inside its parent (`.tail`), and the
ordered child elements. -/
inductive Elem where
  | mk (tag : String) (attrs : List (String × String)) (text : Option String)
      (tail : Option String) (children : List Elem)

def Elem.tag : Elem → String
  | .mk t _ _ _ _ => t

def Elem.attrs : Elem → List (String × String)
  | .mk _ a _ _ _ => a

def Elem.text : Elem → Option String
  | .mk _ _ x _ _ => x

def Elem.tail : Elem → Option String
  | .mk _ _ _ x _ => x

def Elem.children : Elem → List Elem
  | .mk _ _ _ _ c => c

/-- Models `_Element.get(name)`: attribute lookup in the node's attribute
mapping, `None` when absent. -/
def lookupAttr (attrs : List (String × String)) (name : String) : Option String :=
  match attrs.find? (fun p => p.1 == name) with
  | some p => some p.2
  | none => none

mutual
/-- Models lxml `element.itertext()`: the text chunks of the node and all
its descendants in document order (the node's own `.tail` is not
included). -/
def Elem.itertext : Elem → List String
  | .mk _ _ text _ children =>
    (match text with | some t => [t] | none => []) ++ itertextList children

/-- The chunks contributed by a child list: each child's `itertext`
followed by that child's `.tail`. -/
def itertextList : List Elem → List String
  | [] => []
  | c :: cs =>
    Elem.itertext c ++ (match Elem.tail c with | some t => [t] | none => []) ++
      itertextList cs
end

mutual
/-- Models the external lxml serializer `tostring(element, encoding="unicode",
method="html")`: markup for the node's subtree (including its tail, as lxml
does). Only its existence matters to the claims; no claim inspects it. -/
def Elem.serialize : Elem → String
  | .mk tag attrs text tail children =>
    "<" ++ tag ++ serializeAttrs attrs ++ ">" ++
      (match text with | some t => t | none => "") ++
      serializeList children ++ "</" ++ tag ++ ">" ++
      (match tail with | some t => t | none => "")

def serializeAttrs : List (String × String) → String
  | [] => ""
  | (k, v) :: rest => " " ++ k ++ "=" ++ v ++ serializeAttrs rest

def serializeList : List Elem → String
  | [] => ""
  | c :: cs => Elem.serialize c ++ serializeList cs
end

/-- If the character list `pat` leads `s`, the remainder of `s` after it,
`none` otherwise. Helper for the Python `str.replace` model. -/
def afterPat : List Char → List Char → Option (List Char)
  | [], s => some s
  | _ :: _, [] => none
  | p :: ps, c :: cs => if p = c then afterPat ps cs else none

/-- Left-to-right scan of Python `str.replace`: at each position, a match
of `pat` is replaced by `repl` and the scan resumes after it. The fuel
argument (instantiated with the string length) only makes the recursion
structural; each step consumes at least one character, so it never runs
out. -/
def pyReplaceGo (pat repl : List Char) : Nat → List Char → List Char
  | _, [] => []
  | 0, s => s
  | fuel + 1, c :: cs =>
    match afterPat pat (c :: cs) with
    | some rest => repl ++ pyReplaceGo pat repl fuel rest
    | none => c :: pyReplaceGo pat repl fuel cs

/-- Models Python `str.replace(pat, repl)`: all non-overlapping occurrences
replaced left to right. (The source only ever calls it with the non-empty
filter strings, so the empty-pattern edge case keeps the string.) -/
def pyReplace (s pat repl : String) : String :=
  if pat.isEmpty then s
  else ⟨pyReplaceGo pat.data repl.data s.data.length s.data⟩

/-- The characters Python `str.strip()` removes. -/
def pyIsSpace (c : Char) : Bool :=
  c = ' ' ∨ c = '\t' ∨ c = '\n' ∨ c = '\r' ∨ c = '\x0b' ∨ c = '\x0c'

/-- Models Python `str.strip()`: leading and trailing whitespace removed. -/
def pyStrip (s : String) : String :=
  ⟨((s.data.dropWhile pyIsSpace).reverse.dropWhile pyIsSpace).reverse⟩

/-- A value produced by the backend xpath engine: an element node or a
non-element result (string content, attribute value, ...). -/
inductive XPathResult where
  | elem (e : Elem)
  | str (s : String)

/-- The backend query executor for a node's subtree, external collaborator:
given the query string it either returns the matches in document order or
raises. -/
abbrev QueryExec := String → Except PyError (List XPathResult)

/-- Modelled from the spec: the selector-mode enumeration `By` lives in
`nthscraper/by.py`, which is not under `src/`. Spec section 3 lists the
closed variant set ById, ByClass, ByTag, ByXPath, ByAttribute. -/
inductive By where
  | ID
  | CLASS_NAME
  | TAG_NAME
  | XPATH
  | ATTRIBUTE
  deriving Repr, DecidableEq

/-- Modelled from the spec: `selector_mode_values` lives in
`nthscraper/by.py`, which is not under `src/`. Per spec section 4.1 it is a
pure function from (mode, pattern, tagScope) to a pair
(errorLabel, queryString), the label always produced and used only for
failure logging; the per-mode query strings follow the spec's per-mode
contracts (id / class-token / tag / verbatim xpath / attribute match).
No claim inspects the query text itself: the executor receiving it is an
external parameter. -/
def selector_mode_values (by_mode : By) (to_search : String)
    (tag : String := "node()") : String × String :=
  match by_mode with
  | .ID =>
    ("Failed to find element by id", "//" ++ tag ++ "[@id=" ++ to_search ++ "]")
  | .CLASS_NAME =>
    ("Failed to find element by class name",
      "//" ++ tag ++ "[contains(concat( , @class, ), " ++ to_search ++ ")]")
  | .TAG_NAME =>
    ("Failed to find element by tag name", "//" ++ to_search)
  | .XPATH =>
    ("Failed to find element by xpath", to_search)
  | .ATTRIBUTE =>
    ("Failed to find element by attribute", "//" ++ tag ++ "[@" ++ to_search ++ "]")

namespace NthScraperElement

/-- Models the `NthScraperElement.__init__` validity check: constructing a
handle from an xpath result succeeds only for an `_Element` instance and
raises `ValueError` otherwise. A handle wraps exactly one node, so the
handle is modelled by the node it wraps. -/
def mk? : XPathResult → Except PyError Elem
  | .elem e => .ok e
  | .str _ => .error (.valueError "Expected an lxml.etree._Element instance.")

/-- Models the list comprehension
`[NthScraperElement(element) for element in elements]` (with the
`if elements else []` collapse): wraps every backend result, propagating
the first construction failure. -/
def wrapAll : List XPathResult → Except PyError (List Elem)
  | [] => .ok []
  | x :: xs => do
    let e ← mk? x
    let rest ← wrapAll xs
    pure (e :: rest)

/-- The observable outcome of a find-all style call: the returned value
(or the exception that escaped) together with what was logged. -/
structure FindAllResult where
  result : Except PyError (List Elem)
  logs : List String

/-- Embeds `NthScraperElement.find_elements` (scraper.py lines 23-35).
`execQuery` stands for `self.element.xpath`, the external query engine
scoped to this node's subtree. The source's handler reads
`except Exception:` — without `as e` — and then evaluates the f-string
`f"{err_message}: {e}"`; the name `e` is unbound there, so evaluating the
logging call raises `NameError` before anything is logged. -/
def find_elements (by_mode : By) (to_search : String) (tag : String)
    (execQuery : QueryExec) : FindAllResult :=
  let p := selector_mode_values by_mode to_search tag
  match execQuery p.2 >>= wrapAll with
  | .ok elems => { result := .ok elems, logs := [] }
  | .error _ => { result := .error (.nameError "e"), logs := [] }

/-- Embeds `NthScraperElement.find_element` (scraper.py lines 37-46):
translate with the default tag scope, take index 0 of the backend's
matches inside the `try` (an empty result list raises `IndexError` there,
and any backend failure is also caught, both becoming
`ValueError("Failed to find element.")`), then construct the handle
outside the `try` so a construction failure propagates as is. -/
def find_element (by_mode : By) (to_search : String)
    (execQuery : QueryExec) : Except PyError Elem :=
  let p := selector_mode_values by_mode to_search
  match execQuery p.2 with
  | .error _ => .error (.valueError "Failed to find element.")
  | .ok [] => .error (.valueError "Failed to find element.")
  | .ok (x :: _) => mk? x

/-- Embeds `NthScraperElement.get_text` (scraper.py lines 48-55):
all text content is `"".join(self.element.itertext())`; otherwise
`self.element.text` with `None` mapped to the empty string. -/
def get_text (e : Elem) (all_text_content : Bool := true) : String :=
  if all_text_content = true then String.join (Elem.itertext e)
  else match Elem.text e with
    | some t => t
    | none => ""

/-- Embeds `NthScraperElement.get_tag_name`. -/
def get_tag_name (e : Elem) : String := Elem.tag e

/-- Embeds the `for rep in inner_text_filter: text = text.replace(rep, "")`
loop in `get_attribute`: each filter string is removed (all occurrences)
in list order. -/
def innerTextLoop : String → List String → String
  | text, [] => text
  | text, rep :: rest => innerTextLoop (pyReplace text rep "") rest

/-- Embeds `NthScraperElement.get_attribute` (scraper.py lines 61-82):
`"innerText"` returns `get_text()` with the filters removed and the result
stripped of outer whitespace; `"innerHTML"` returns the subtree
serialization; any other name is a literal attribute lookup that raises
`ValueError` when the attribute is absent. (The source's parameter is
named `attribute`, a reserved word here, so the binder is `attr`.) -/
def get_attribute (e : Elem) (attr : String)
    (inner_text_filter : List String := ["\n", "\t"]) : Except PyError String :=
  if attr = "innerText" then
    .ok (pyStrip (innerTextLoop (get_text e true) inner_text_filter))
  else if attr = "innerHTML" then
    .ok (Elem.serialize e)
  else
    match lookupAttr (Elem.attrs e) attr with
    | none => .error (.valueError ("Error accessing the attribute " ++ attr))
    | some v => .ok v

/-- Embeds `NthScraperElement.get_children` (scraper.py lines 88-91):
direct children filtered by tag name, `"*"` matching every tag. -/
def get_children (e : Elem) (tag_name : String := "*") : List Elem :=
  (Elem.children e).filter (fun c => tag_name = "*" ∨ Elem.tag c = tag_name)

end NthScraperElement

/-- The HTTP backend, external collaborator: `self.session.request` as a
function of (method, url, merged headers), returning a response or raising
a connection-level failure. -/
abbrev HttpBackend := String → String → List (String × String) → Except PyError Response

/-- Models Python `dict.copy()` followed by `dict.update(upd)`: every key
of `upd` overrides or extends the base mapping. -/
def dictUpdate (base upd : List (String × String)) : List (String × String) :=
  upd.foldl (fun acc kv => acc.filter (fun p => !(p.1 == kv.1)) ++ [kv]) base

/-- The mutable state of a `RequestsWrapper` instance
(`src/zenscraper/wrapper/requests_wrapper.py`). `web_hit_count` is
declared as a class attribute equal to 0, and `self.web_hit_count += 1`
creates an instance attribute shadowing it, so a fresh instance counts
from 0; `sessionHeaders` records the `__init__` kwargs merged into the
underlying session's headers (collaborator state, untouched afterwards). -/
structure RequestsWrapper where
  web_hit_count : Nat
  sessionHeaders : List (String × String)
  deriving Repr, DecidableEq

namespace RequestsWrapper

/-- The class-level default identifying header set. -/
def headersDefault : List (String × String) :=
  [("User-Agent",
    "Mozilla/5.0 (Macintosh; Intel Mac OS X 10_11_5) AppleWebKit/537.36 (KHTML, like Gecko) Chrome/50.0.2661.102 Safari/537.36")]

/-- Embeds `RequestsWrapper.__init__`. -/
def init (kwargsHeaders : List (String × String) := []) : RequestsWrapper :=
  { web_hit_count := 0, sessionHeaders := kwargsHeaders }

/-- Embeds `RequestsWrapper.request` (requests_wrapper.py lines 19-33):
pop `sleep_seconds` and sleep (blocking only, no observable effect here),
merge the default headers with the caller's, increment the hit counter,
issue the request through the session, then `raise_for_status()` raises
`HTTPError` exactly for a 4xx or 5xx status. -/
def request (w : RequestsWrapper) (method : String) (url : String)
    (sleep_seconds : Nat) (headersArg : List (String × String))
    (backend : HttpBackend) : RequestsWrapper × Except PyError Response :=
  let headers := dictUpdate headersDefault headersArg
  let w1 : RequestsWrapper := { w with web_hit_count := w.web_hit_count + 1 }
  match backend method url headers with
  | .error err => (w1, .error err)
  | .ok resp =>
    if 400 ≤ resp.status ∧ resp.status < 600 then (w1, .error (.httpError resp.status))
    else (w1, .ok resp)

/-- Embeds `RequestsWrapper.get`. -/
def get (w : RequestsWrapper) (url : String) (sleep_seconds : Nat)
    (headersArg : List (String × String)) (backend : HttpBackend) :
    RequestsWrapper × Except PyError Response :=
  request w "GET" url sleep_seconds headersArg backend

/-- Embeds `RequestsWrapper.post`. -/
def post (w : RequestsWrapper) (url : String) (sleep_seconds : Nat)
    (headersArg : List (String × String)) (backend : HttpBackend) :
    RequestsWrapper × Except PyError Response :=
  request w "POST" url sleep_seconds headersArg backend

/-- Embeds `RequestsWrapper.get_hit_count`. -/
def get_hit_count (w : RequestsWrapper) : Nat := w.web_hit_count

/-- One call to `request` (or to `get`/`post`, which delegate to it):
its arguments together with the backend behaviour for that call. -/
structure CallSpec where
  method : String
  url : String
  sleep_seconds : Nat
  headersArg : List (String × String)
  backend : HttpBackend

/-- Runs a sequence of `request` calls against the wrapper, threading the
instance state and discarding each response or exception. -/
def runCalls : RequestsWrapper → List CallSpec → RequestsWrapper
  | w, [] => w
  | w, c :: cs => runCalls (request w c.method c.url c.sleep_seconds c.headersArg c.backend).1 cs

end RequestsWrapper

/-- The parser collaborator `html.fromstring`: body bytes to a tree root,
or a raised parse failure. -/
abbrev HtmlParse := String → Except PyError Elem

/-- The state of an `NthScraper` session (scraper.py lines 101-104). -/
structure NthScraper where
  requests_wrapper : RequestsWrapper
  doc : Option Elem
  response : Option Response

/-- Embeds `NthScraper.__init__`: a fresh wrapper, no document, no
response. -/
def NthScraper.init : NthScraper :=
  { requests_wrapper := RequestsWrapper.init [], doc := none, response := none }

/-- Embeds `NthScraper._get_response` (scraper.py lines 106-121):
resolve the throttle delay (`random.randint(1, 5)` when absent, the
external draw supplied as `randSleep`), dispatch to the wrapper's `post`
or `get`, and on success store the response and then the parse of its
body (`None` when the body is empty). A transport failure propagates with
the session state untouched except for the wrapper's hit counter; a parse
failure propagates after `self.response` was assigned but before
`self.doc` was. -/
def NthScraper._get_response (s : NthScraper) (url : String)
    (sleep_seconds : Option Nat) (is_post : Bool)
    (headersArg : List (String × String)) (backend : HttpBackend)
    (parse : HtmlParse) (randSleep : Nat) :
    NthScraper × Except PyError Response :=
  let sleep := match sleep_seconds with | some n => n | none => randSleep
  let call :=
    if is_post then RequestsWrapper.post s.requests_wrapper url sleep headersArg backend
    else RequestsWrapper.get s.requests_wrapper url sleep headersArg backend
  match call with
  | (w1, .error err) => ({ s with requests_wrapper := w1 }, .error err)
  | (w1, .ok resp) =>
    let s1 : NthScraper := { s with requests_wrapper := w1, response := some resp }
    if resp.content.isEmpty then
      ({ s1 with doc := none }, .ok resp)
    else
      match parse resp.content with
      | .error err => (s1, .error err)
      | .ok root => ({ s1 with doc := some root }, .ok resp)

/-- Embeds `NthScraper.get` (scraper.py lines 123-124). -/
def NthScraper.get (s : NthScraper) (url : String) (sleep_seconds : Option Nat)
    (headersArg : List (String × String)) (backend : HttpBackend)
    (parse : HtmlParse) (randSleep : Nat) : NthScraper × Except PyError Response :=
  NthScraper._get_response s url sleep_seconds false headersArg backend parse randSleep

/-- Embeds `NthScraper.post` (scraper.py lines 137-138). -/
def NthScraper.post (s : NthScraper) (url : String) (sleep_seconds : Option Nat)
    (headersArg : List (String × String)) (backend : HttpBackend)
    (parse : HtmlParse) (randSleep : Nat) : NthScraper × Except PyError Response :=
  NthScraper._get_response s url sleep_seconds true headersArg backend parse randSleep

/-- Outcome of `NthScraper.get_from_local`: the new session state, whether
the `self.response.close()` statement was reached, the log lines, and the
returned response or the exception that escaped. The local `session`
object itself is mounted with the file adapter and never closed on any
path. -/
structure LocalFetchResult where
  scraper : NthScraper
  responseClosed : Bool
  logs : List String
  result : Except PyError Response

/-- Embeds `NthScraper.get_from_local` (scraper.py lines 126-135),
straight-line code with no `try`/`finally`: mount the file adapter, issue
`session.get("file://" + file_path)` (`sessionGet`, external), log, store
the response, parse a non-empty body into `self.doc` (`None` otherwise),
close the response, return it. If `sessionGet` raises there is no response
at all; if the parse raises, the close statement is never reached. -/
def NthScraper.get_from_local (s : NthScraper) (file_path : String)
    (sessionGet : String → Except PyError Response)
    (parse : HtmlParse) : LocalFetchResult :=
  match sessionGet ("file://" ++ file_path) with
  | .error err =>
    { scraper := s, responseClosed := false, logs := [], result := .error err }
  | .ok resp =>
    let s1 : NthScraper := { s with response := some resp }
    let logLines := ["Scraping data from: " ++ file_path]
    if resp.content.isEmpty then
      { scraper := { s1 with doc := none }, responseClosed := true,
        logs := logLines, result := .ok resp }
    else
      match parse resp.content with
      | .error err =>
        { scraper := s1, responseClosed := false, logs := logLines,
          result := .error err }
      | .ok root =>
        { scraper := { s1 with doc := some root }, responseClosed := true,
          logs := logLines, result := .ok resp }

/-- Models the line `doc = doc if doc else self.doc` (scraper.py lines
148 and 170) with Python truthiness: `None` is falsy, and an lxml element
with no children is falsy, so both fall back to `self.doc`. -/
def resolveDoc (docArg : Option Elem) (selfDoc : Option Elem) : Option Elem :=
  match docArg with
  | some d => if (Elem.children d).isEmpty then selfDoc else some d
  | none => selfDoc

/-- The backend query executor at document scope, external collaborator:
`doc.xpath(xpath)` as a function of the document and the query string. -/
abbrev DocQueryExec := Elem → String → Except PyError (List XPathResult)

/-- Embeds `NthScraper.find_elements` (scraper.py lines 140-160): translate
the selector, resolve the document, and when there is no document or its
root has no children (`doc is None or len(doc) == 0`) log the not-loaded
message and return the empty list; otherwise run the query, wrapping the
matches, and on any query failure log the error label with the cause and
return the empty list (this handler correctly binds `except Exception as
e`). -/
def NthScraper.find_elements (s : NthScraper) (by_mode : By) (to_search : String)
    (doc : Option Elem) (tag : String) (execQuery : DocQueryExec) :
    NthScraperElement.FindAllResult :=
  let p := selector_mode_values by_mode to_search tag
  match resolveDoc doc s.doc with
  | none =>
    { result := .ok [],
      logs := ["Document is not loaded properly for xpath operations."] }
  | some d =>
    if (Elem.children d).length = 0 then
      { result := .ok [],
        logs := ["Document is not loaded properly for xpath operations."] }
    else
      match execQuery d p.2 >>= NthScraperElement.wrapAll with
      | .ok elems => { result := .ok elems, logs := [] }
      | .error err => { result := .ok [], logs := [p.1 ++ ": " ++ pyStr err] }

/-- Embeds `NthScraper.find_element` (scraper.py lines 162-179): same
translation and document resolution; with no document or a childless root
it raises `ReferenceError("HTML Document is not a valid lxml object")`;
otherwise index 0 of the matches is taken and the handle constructed
inside the `try`, so a query failure, zero matches (`IndexError`) and a
handle-construction failure are all caught and re-raised as
`ValueError("Failed to find Element")`. -/
def NthScraper.find_element (s : NthScraper) (by_mode : By) (to_search : String)
    (doc : Option Elem) (tag : String) (execQuery : DocQueryExec) :
    Except PyError Elem :=
  let p := selector_mode_values by_mode to_search tag
  match resolveDoc doc s.doc with
  | none => .error (.referenceError "HTML Document is not a valid lxml object")
  | some d =>
    if (Elem.children d).length = 0 then
      .error (.referenceError "HTML Document is not a valid lxml object")
    else
      match execQuery d p.2 with
      | .error _ => .error (.valueError "Failed to find Element")
      | .ok [] => .error (.valueError "Failed to find Element")
      | .ok (x :: _) =>
        match NthScraperElement.mk? x with
        | .ok e => .ok e
        | .error _ => .error (.valueError "Failed to find Element")

/-- The node lxml parses for `<p>A<b>B</b>C</p>`: direct text "A", one
child `<b>` with text "B" and tail "C". -/
def sampleABC : Elem :=
  Elem.mk "p" [] (some "A") none [Elem.mk "b" [] (some "B") (some "C") []]

/-- A node whose full text content is the whitespace-laden " \na\tb \n". -/
def sampleWs : Elem := Elem.mk "p" [] (some " \na\tb \n") none []

/-- A node with one literal attribute and no text. -/
def sampleAttr : Elem :=
  Elem.mk "a" [("href", "https://example.com")] none none []

/-- A parsed root with zero children, as lxml produces for
`<html></html>`. -/
def sampleChildless : Elem := Elem.mk "html" [] none none []

/-- The innerText removal loop is the left fold of single-filter removal
over the filter list, i.e. each filter is applied in list order. -/
theorem innerTextLoop_eq_foldl (text : String) (filters : List String) :
    NthScraperElement.innerTextLoop text filters =
      filters.foldl (fun t rep => pyReplace t rep "") text := by
  induction filters generalizing text with
  | nil => rfl
  | cons r rs ih => simpa [NthScraperElement.innerTextLoop] using ih (pyReplace text r "")

/-- C7: `get_text(true)` joins the text chunks of the node and all its
descendants in document order with no separator, and `get_text(false)`
returns the node's own direct text, with the empty string (not absent)
when there is none; on the node for `A<b>B</b>C` they give "ABC" and
"A". -/
theorem C7_get_text_contract :
    (∀ e : Elem,
      NthScraperElement.get_text e true = String.join (Elem.itertext e) ∧
      NthScraperElement.get_text e false = (Elem.text e).getD "") ∧
    NthScraperElement.get_text sampleABC true = "ABC" ∧
    NthScraperElement.get_text sampleABC false = "A" := by
  refine ⟨fun e => ⟨rfl, ?_⟩, rfl, rfl⟩
  cases h : Elem.text e <;> simp [NthScraperElement.get_text, h]

/-- C6: `get_attribute("innerText", filters)` equals `get_text(true)` with
every filter string removed, applied in list order (all occurrences), and
outer whitespace stripped; with the default filters the full text
" \na\tb \n" yields "ab". -/
theorem C6_inner_text :
    (∀ (e : Elem) (filters : List String),
      NthScraperElement.get_attribute e "innerText" filters =
        .ok (pyStrip (filters.foldl (fun t rep => pyReplace t rep "")
          (NthScraperElement.get_text e true)))) ∧
    NthScraperElement.get_attribute sampleWs "innerText" ["\n", "\t"] = .ok "ab" := by
  constructor
  · intro e filters
    simp [NthScraperElement.get_attribute, innerTextLoop_eq_foldl]
  · rfl

/-- C5: for a non-reserved attribute name, `get_attribute` returns the
stored literal value when the attribute is present and raises
`ValueError` (the spec's AttributeNotFoundError) when it is absent; it
never returns a placeholder for a missing attribute. -/
theorem C5_literal_attribute_lookup (e : Elem) (name : String) (filters : List String)
    (h1 : name ≠ "innerText") (h2 : name ≠ "innerHTML") :
    (∀ v, lookupAttr (Elem.attrs e) name = some v →
      NthScraperElement.get_attribute e name filters = .ok v) ∧
    (lookupAttr (Elem.attrs e) name = none →
      NthScraperElement.get_attribute e name filters =
        .error (.valueError ("Error accessing the attribute " ++ name))) := by
  constructor
  · intro v hv
    simp [NthScraperElement.get_attribute, h1, h2, hv]
  · intro hv
    simp [NthScraperElement.get_attribute, h1, h2, hv]

/-- Witness for C5 at a concrete node: the present attribute "href" comes
back with its stored value, the absent attribute "id" raises. -/
theorem C5_literal_attribute_lookup_witness :
    NthScraperElement.get_attribute sampleAttr "href" ["\n", "\t"] =
      .ok "https://example.com" ∧
    NthScraperElement.get_attribute sampleAttr "id" ["\n", "\t"] =
      .error (.valueError ("Error accessing the attribute " ++ "id")) :=
  ⟨(C5_literal_attribute_lookup sampleAttr "href" ["\n", "\t"]
      (by decide) (by decide)).1 "https://example.com" rfl,
   (C5_literal_attribute_lookup sampleAttr "id" ["\n", "\t"]
      (by decide) (by decide)).2 rfl⟩

/-- C4: element-scope `find_element` returns exactly one handle wrapping
the first match in the document-ordered result list of the backend query,
and raises `ValueError("Failed to find element.")` (the spec's
NotFoundError) both when there are zero matches and when the backend query
execution throws. -/
theorem C4_find_element_first_or_not_found (by_mode : By) (to_search : String)
    (execQuery : QueryExec) :
    (∀ x rest,
      execQuery (selector_mode_values by_mode to_search).2 =
          .ok (XPathResult.elem x :: rest) →
        NthScraperElement.find_element by_mode to_search execQuery = .ok x) ∧
    (execQuery (selector_mode_values by_mode to_search).2 = .ok [] →
      NthScraperElement.find_element by_mode to_search execQuery =
        .error (.valueError "Failed to find element.")) ∧
    (∀ err, execQuery (selector_mode_values by_mode to_search).2 = .error err →
      NthScraperElement.find_element by_mode to_search execQuery =
        .error (.valueError "Failed to find element.")) := by
  refine ⟨fun x rest h => ?_, fun h => ?_, fun err h => ?_⟩ <;>
    simp [NthScraperElement.find_element, h, NthScraperElement.mk?]

/-- Witness for C4 at concrete queries: a first match is returned as the
handle, zero matches and a throwing query both raise NotFoundError. -/
theorem C4_find_element_first_or_not_found_witness :
    NthScraperElement.find_element By.XPATH "//p"
        (fun _ => .ok [XPathResult.elem sampleABC]) = .ok sampleABC ∧
    NthScraperElement.find_element By.XPATH "//p" (fun _ => .ok []) =
      .error (.valueError "Failed to find element.") ∧
    NthScraperElement.find_element By.XPATH "///"
        (fun _ => .error (.queryError "Invalid expression")) =
      .error (.valueError "Failed to find element.") :=
  ⟨(C4_find_element_first_or_not_found By.XPATH "//p"
      (fun _ => .ok [XPathResult.elem sampleABC])).1 sampleABC [] rfl,
   (C4_find_element_first_or_not_found By.XPATH "//p" (fun _ => .ok [])).2.1 rfl,
   (C4_find_element_first_or_not_found By.XPATH "///"
      (fun _ => .error (.queryError "Invalid expression"))).2.2
      (.queryError "Invalid expression") rfl⟩

/-- C1 (code bug): on a backend query failure, document-scope
`NthScraper.find_elements` does log the error label with the cause and
return the empty list, but element-scope `NthScraperElement.find_elements`
does not: its handler (`except Exception:` with no `as e`) evaluates the
unbound name `e` in the f-string, so the call raises `NameError` and logs
nothing instead of returning the empty list, contradicting the claim. -/
theorem C1_element_scope_raises_on_bad_selector :
    NthScraperElement.find_elements By.XPATH "///" "node()"
        (fun _ => .error (.queryError "Invalid expression")) =
      { result := .error (.nameError "e"), logs := [] } ∧
    NthScraper.find_elements { NthScraper.init with doc := some sampleABC }
        By.XPATH "///" none "node()"
        (fun _ _ => .error (.queryError "Invalid expression")) =
      { result := .ok [],
        logs := ["Failed to find element by xpath: Invalid expression"] } := by
  constructor <;> rfl

/-- C2: on a fresh session (no fetch or load performed, so no parsed
tree), document-scope `find_elements` logs the not-loaded message and
returns the empty list without raising, for every selector mode, pattern,
tag scope and backend; document-scope `find_element` in the same state
raises `ReferenceError` (the document-not-loaded failure), not the
`ValueError` NotFoundError. -/
theorem C2_unloaded_session (by_mode : By) (to_search tag : String)
    (execQuery : DocQueryExec) :
    NthScraper.find_elements NthScraper.init by_mode to_search none tag execQuery =
      { result := .ok [],
        logs := ["Document is not loaded properly for xpath operations."] } ∧
    NthScraper.find_element NthScraper.init by_mode to_search none tag execQuery =
      .error (.referenceError "HTML Document is not a valid lxml object") := by
  constructor <;> rfl

/-- C9: a session whose stored tree root has zero children behaves at the
public interface exactly like the unloaded session: document-scope
`find_elements` returns the empty list with the not-loaded log line, and
document-scope `find_element` raises the same `ReferenceError`, for every
selector and backend. -/
theorem C9_childless_root_like_unloaded (root : Elem)
    (hchildless : Elem.children root = [])
    (by_mode : By) (to_search tag : String) (execQuery : DocQueryExec) :
    NthScraper.find_elements { NthScraper.init with doc := some root }
        by_mode to_search none tag execQuery =
      NthScraper.find_elements NthScraper.init by_mode to_search none tag execQuery ∧
    NthScraper.find_element { NthScraper.init with doc := some root }
        by_mode to_search none tag execQuery =
      NthScraper.find_element NthScraper.init by_mode to_search none tag execQuery ∧
    NthScraper.find_elements { NthScraper.init with doc := some root }
        by_mode to_search none tag execQuery =
      { result := .ok [],
        logs := ["Document is not loaded properly for xpath operations."] } ∧
    NthScraper.find_element { NthScraper.init with doc := some root }
        by_mode to_search none tag execQuery =
      .error (.referenceError "HTML Document is not a valid lxml object") := by
  refine ⟨?_, ?_, ?_, ?_⟩ <;>
    simp [NthScraper.find_elements, NthScraper.find_element, resolveDoc,
      hchildless, NthScraper.init]

/-- Witness for C9 on the childless root lxml parses for
`<html></html>`. -/
theorem C9_childless_root_like_unloaded_witness :
    NthScraper.find_elements { NthScraper.init with doc := some sampleChildless }
        By.ID "x" none "node()" (fun _ _ => .ok []) =
      { result := .ok [],
        logs := ["Document is not loaded properly for xpath operations."] } ∧
    NthScraper.find_element { NthScraper.init with doc := some sampleChildless }
        By.ID "x" none "node()" (fun _ _ => .ok []) =
      .error (.referenceError "HTML Document is not a valid lxml object") :=
  ⟨(C9_childless_root_like_unloaded sampleChildless rfl By.ID "x" "node()"
      (fun _ _ => .ok [])).2.2.1,
   (C9_childless_root_like_unloaded sampleChildless rfl By.ID "x" "node()"
      (fun _ _ => .ok [])).2.2.2⟩

/-- C3: a successful fetch replaces the session state wholesale: whatever
tree and response the session held before (`doc0`, `resp0` are arbitrary
and absent from the result), afterwards the stored response is exactly the
new response and the stored tree root is the parse of the new body when
the body is non-empty, else none; the wrapper's hit counter advances by
one. -/
theorem C3_fetch_replaces_state_wholesale
    (rw0 : RequestsWrapper) (doc0 : Option Elem) (resp0 : Option Response)
    (url : String) (sleep_seconds : Option Nat) (is_post : Bool)
    (headersArg : List (String × String)) (backend : HttpBackend)
    (parse : HtmlParse) (randSleep : Nat) (resp : Response) (root : Elem)
    (hbackend : backend (if is_post then "POST" else "GET") url
        (dictUpdate RequestsWrapper.headersDefault headersArg) = .ok resp)
    (hstatus : resp.status < 400) :
    (resp.content.isEmpty = true →
      NthScraper._get_response ⟨rw0, doc0, resp0⟩ url sleep_seconds is_post
          headersArg backend parse randSleep =
        (⟨⟨rw0.web_hit_count + 1, rw0.sessionHeaders⟩, none, some resp⟩, .ok resp)) ∧
    (resp.content.isEmpty = false → parse resp.content = .ok root →
      NthScraper._get_response ⟨rw0, doc0, resp0⟩ url sleep_seconds is_post
          headersArg backend parse randSleep =
        (⟨⟨rw0.web_hit_count + 1, rw0.sessionHeaders⟩, some root, some resp⟩,
          .ok resp)) := by
  have hs : ¬(400 ≤ resp.status ∧ resp.status < 600) := by omega
  cases is_post with
  | false =>
    simp only [Bool.false_eq_true, if_false] at hbackend
    constructor
    · intro hempty
      simp [NthScraper._get_response, RequestsWrapper.get, RequestsWrapper.request,
        hbackend, hs, hempty]
    · intro hempty hparse
      simp [NthScraper._get_response, RequestsWrapper.get, RequestsWrapper.request,
        hbackend, hs, hempty, hparse]
  | true =>
    simp only [if_true] at hbackend
    constructor
    · intro hempty
      simp [NthScraper._get_response, RequestsWrapper.post, RequestsWrapper.request,
        hbackend, hs, hempty]
    · intro hempty hparse
      simp [NthScraper._get_response, RequestsWrapper.post, RequestsWrapper.request,
        hbackend, hs, hempty, hparse]

/-- Witness for C3: a concrete GET whose 200 response has a non-empty body
that parses; the session (which held no state) ends with exactly the new
response and the new tree, and the hit counter at one. -/
theorem C3_fetch_replaces_state_wholesale_witness :
    NthScraper._get_response NthScraper.init "http://example.com" (some 0) false []
        (fun _ _ _ => .ok ⟨200, "<html>"⟩) (fun _ => .ok sampleABC) 1 =
      (⟨⟨1, []⟩, some sampleABC, some ⟨200, "<html>"⟩⟩, .ok ⟨200, "<html>"⟩) :=
  (C3_fetch_replaces_state_wholesale ⟨0, []⟩ none none "http://example.com"
      (some 0) false [] (fun _ _ _ => .ok ⟨200, "<html>"⟩)
      (fun _ => .ok sampleABC) 1 ⟨200, "<html>"⟩ sampleABC rfl
      (by decide)).2 rfl rfl

/-- Counterexample to C8 as stated: a concrete `get_from_local` run in
which the local fetch succeeds (a 200 response with the truthy body " ")
but the parse raises, so the call fails after the body was consumed and
the `self.response.close()` statement is never reached — the transport
resource is not closed on this execution path. -/
theorem C8_close_counterexample :
    (NthScraper.get_from_local NthScraper.init "page.html"
        (fun _ => .ok ⟨200, " "⟩)
        (fun _ => .error (.parserError "Document is empty"))).responseClosed
      = false ∧
    (NthScraper.get_from_local NthScraper.init "page.html"
        (fun _ => .ok ⟨200, " "⟩)
        (fun _ => .error (.parserError "Document is empty"))).result
      = .error (.parserError "Document is empty") := by
  constructor <;> rfl

/-- C8 as amended: in `get_from_local`, the response is closed after the
body is consumed on every path on which the call returns (local fetch
succeeded and a non-empty body parsed); on a path that raises — a fetch
failure or a parse failure — the close statement is not reached, and the
local session object is never closed on any path. -/
theorem C8_close_on_return (s : NthScraper) (file_path : String)
    (sessionGet : String → Except PyError Response) (parse : HtmlParse)
    (resp : Response)
    (hret : (NthScraper.get_from_local s file_path sessionGet parse).result =
      .ok resp) :
    (NthScraper.get_from_local s file_path sessionGet parse).responseClosed =
      true := by
  cases hg : sessionGet ("file://" ++ file_path) with
  | error err => simp [NthScraper.get_from_local, hg] at hret
  | ok resp' =>
    by_cases hc : resp'.content.isEmpty = true
    · simp [NthScraper.get_from_local, hg, hc]
    · cases hp : parse resp'.content with
      | error err => simp [NthScraper.get_from_local, hg, hc, hp] at hret
      | ok root => simp [NthScraper.get_from_local, hg, hc, hp]

/-- Witness for the amended C8: a concrete successful local load reaches
the close statement. -/
theorem C8_close_on_return_witness :
    (NthScraper.get_from_local NthScraper.init "page.html"
        (fun _ => .ok ⟨200, "<html>"⟩)
        (fun _ => .ok sampleABC)).responseClosed = true :=
  C8_close_on_return NthScraper.init "page.html"
    (fun _ => .ok ⟨200, "<html>"⟩) (fun _ => .ok sampleABC)
    ⟨200, "<html>"⟩ rfl

/-- Every `request` call advances the instance hit counter by exactly one,
whatever the backend outcome (success, connection failure, or a response
whose `raise_for_status()` throws). -/
theorem request_increments_hit_count (w : RequestsWrapper) (method url : String)
    (ss : Nat) (hd : List (String × String)) (backend : HttpBackend) :
    ((RequestsWrapper.request w method url ss hd backend).1).web_hit_count =
      w.web_hit_count + 1 := by
  cases hb : backend method url (dictUpdate RequestsWrapper.headersDefault hd) with
  | error err => simp [RequestsWrapper.request, hb]
  | ok resp =>
    by_cases hs : 400 ≤ resp.status ∧ resp.status < 600 <;>
      simp [RequestsWrapper.request, hb, hs]

/-- Running a call sequence adds its length to the hit counter. -/
theorem runCalls_hit_count (calls : List RequestsWrapper.CallSpec)
    (w : RequestsWrapper) :
    (RequestsWrapper.runCalls w calls).web_hit_count =
      w.web_hit_count + calls.length := by
  induction calls generalizing w with
  | nil => simp [RequestsWrapper.runCalls]
  | cons c cs ih =>
    simp [RequestsWrapper.runCalls, ih, request_increments_hit_count]
    omega

/-- C10: each `request` call (and so each `get`/`post` call, which
delegate to it) increments the wrapper's web hit counter by exactly one —
the increment sits before the backend call and `raise_for_status()`, so a
call that fails with a non-2xx status is still counted — and for a fresh
`RequestsWrapper` instance, `get_hit_count()` after n calls returns n. -/
theorem C10_web_hit_counter (w : RequestsWrapper) (method url : String)
    (ss : Nat) (hd : List (String × String)) (backend : HttpBackend)
    (calls : List RequestsWrapper.CallSpec)
    (kwargsHeaders : List (String × String)) :
    RequestsWrapper.get_hit_count
        (RequestsWrapper.request w method url ss hd backend).1 =
      RequestsWrapper.get_hit_count w + 1 ∧
    (∀ resp : Response, 400 ≤ resp.status → resp.status < 600 →
      (RequestsWrapper.request w method url ss hd (fun _ _ _ => .ok resp)).2 =
          .error (.httpError resp.status) ∧
      RequestsWrapper.get_hit_count
          (RequestsWrapper.request w method url ss hd (fun _ _ _ => .ok resp)).1 =
        RequestsWrapper.get_hit_count w + 1) ∧
    RequestsWrapper.get_hit_count
        (RequestsWrapper.runCalls (RequestsWrapper.init kwargsHeaders) calls) =
      calls.length := by
  refine ⟨request_increments_hit_count w method url ss hd backend, ?_, ?_⟩
  · intro resp h4 h6
    constructor
    · simp [RequestsWrapper.request, h4, h6]
    · exact request_increments_hit_count w method url ss hd _
  · simpa [RequestsWrapper.get_hit_count, RequestsWrapper.init] using
      runCalls_hit_count calls (RequestsWrapper.init kwargsHeaders)

/-- Witness for C10 at a concrete fresh wrapper: a GET whose backend
returns status 404 raises `HTTPError` yet is counted, and two calls leave
the counter at two. -/
theorem C10_web_hit_counter_witness :
    (RequestsWrapper.request (RequestsWrapper.init []) "GET" "http://example.com"
        0 [] (fun _ _ _ => .ok ⟨404, ""⟩)).2 = .error (.httpError 404) ∧
    RequestsWrapper.get_hit_count
        (RequestsWrapper.request (RequestsWrapper.init []) "GET"
          "http://example.com" 0 [] (fun _ _ _ => .ok ⟨404, ""⟩)).1 =
      RequestsWrapper.get_hit_count (RequestsWrapper.init []) + 1 :=
  (C10_web_hit_counter (RequestsWrapper.init []) "GET" "http://example.com" 0 []
      (fun _ _ _ => .ok ⟨404, ""⟩) [] []).2.1 ⟨404, ""⟩ (by decide) (by decide)
